import Mathlib

/-!
Shallow embedding of the carbon-feed-hub pipeline (TypeScript) in Lean 4.

Embedded source files:
* `src/lib/messages.ts`   — message envelope model and envelope factories
* `src/lib/topology.ts`   — exchange / queue / routing-key constants
* `src/lib/connection.ts` — `ConnectionManager` (connect retry loop, channel
  lifecycle, close)
* `src/ingesters/carbon.ts` and the weather ingester — publish path, exponential
  backoff, one iteration of the polling loop
* the logger and aggregator consumers — per-delivery ack/nack decision tree

Modelling conventions: JavaScript numbers that only ever hold integral
millisecond delays or counters are `Nat`; thrown exceptions are `Except` /
explicit result constructors; nondeterministic inputs (generated UUIDs,
clock readings, fetch outcomes, broker connect outcomes) are explicit
parameters; `JSON.parse` of a delivery body is modelled by an
`Option MessageEnvelope` (`none` = unparseable).
-/

-- ============================================================================
-- src/lib/messages.ts
-- ============================================================================

/-- Payload of a carbon-intensity message (src/lib/messages.ts, `CarbonIntensityData`).
Numeric readings are integral gCO2/kWh values. -/
structure CarbonIntensityData where
  periodStart : String
  periodEnd : String
  forecast : Int
  actual : Option Int
  index : String
  deriving Repr, DecidableEq

/-- One fuel contribution (src/lib/messages.ts, `GenerationMixEntry`). -/
structure GenerationMixEntry where
  fuel : String
  percentage : Int
  deriving Repr, DecidableEq

/-- Payload of a carbon-generation message (src/lib/messages.ts, `CarbonGenerationData`). -/
structure CarbonGenerationData where
  timestamp : String
  mix : List GenerationMixEntry
  deriving Repr, DecidableEq

/-- Geographic coordinates (src/lib/messages.ts, `Coordinates`). -/
structure Coordinates where
  lat : Int
  lon : Int
  deriving Repr, DecidableEq

/-- Location information (src/lib/messages.ts, `WeatherLocation`). -/
structure WeatherLocation where
  city : String
  country : String
  coordinates : Coordinates
  deriving Repr, DecidableEq

/-- Temperature pair (src/lib/messages.ts, `Temperature`). -/
structure Temperature where
  current : Int
  feelsLike : Int
  deriving Repr, DecidableEq

/-- Wind vector (src/lib/messages.ts, `Wind`). -/
structure Wind where
  speed : Int
  direction : Int
  deriving Repr, DecidableEq

/-- Weather condition text pair (src/lib/messages.ts, `WeatherCondition`). -/
structure WeatherCondition where
  main : String
  description : String
  deriving Repr, DecidableEq

/-- Payload of a weather-current message (src/lib/messages.ts, `WeatherCurrentData`). -/
structure WeatherCurrentData where
  location : WeatherLocation
  observedAt : String
  temperature : Temperature
  humidity : Int
  pressure : Int
  wind : Wind
  condition : WeatherCondition
  deriving Repr, DecidableEq

/-- Closed sum of the payload variants carried in `MessageEnvelope.data`
(the TS `data: T` is polymorphic; the repository publishes exactly these). -/
inductive Payload where
  | carbonIntensity (d : CarbonIntensityData)
  | carbonGeneration (d : CarbonGenerationData)
  | weatherCurrent (d : WeatherCurrentData)
  deriving Repr, DecidableEq

/-- Uniform message wrapper (src/lib/messages.ts, `MessageEnvelope`). -/
structure MessageEnvelope where
  id : String
  source : String
  type : String
  timestamp : String
  data : Payload
  deriving Repr, DecidableEq

/-- src/lib/messages.ts `MESSAGE_SOURCES.CARBON_INGESTER`. -/
def MESSAGE_SOURCES.CARBON_INGESTER : String := "carbon-ingester"

/-- src/lib/messages.ts `MESSAGE_SOURCES.WEATHER_INGESTER`. -/
def MESSAGE_SOURCES.WEATHER_INGESTER : String := "weather-ingester"

/-- src/lib/messages.ts `MESSAGE_TYPES.CARBON_INTENSITY`. -/
def MESSAGE_TYPES.CARBON_INTENSITY : String := "feed.carbon.intensity"

/-- src/lib/messages.ts `MESSAGE_TYPES.CARBON_GENERATION`. -/
def MESSAGE_TYPES.CARBON_GENERATION : String := "feed.carbon.generation"

/-- src/lib/messages.ts `MESSAGE_TYPES.WEATHER_CURRENT`. -/
def MESSAGE_TYPES.WEATHER_CURRENT : String := "feed.weather.current"

/-- src/lib/messages.ts `createEnvelope`.  The TS function generates
`id := randomUUID()` and `timestamp := new Date().toISOString()`; both
nondeterministic reads are passed in as the first two parameters. -/
def createEnvelope (id timestamp : String) (source type : String) (data : Payload) :
    MessageEnvelope :=
  { id := id, source := source, type := type, timestamp := timestamp, data := data }

/-- src/lib/messages.ts `createCarbonIntensityMessage` (id/timestamp passed in, see
`createEnvelope`). -/
def createCarbonIntensityMessage (id timestamp : String) (data : CarbonIntensityData) :
    MessageEnvelope :=
  createEnvelope id timestamp MESSAGE_SOURCES.CARBON_INGESTER
    MESSAGE_TYPES.CARBON_INTENSITY (Payload.carbonIntensity data)

/-- src/lib/messages.ts `createCarbonGenerationMessage`. -/
def createCarbonGenerationMessage (id timestamp : String) (data : CarbonGenerationData) :
    MessageEnvelope :=
  createEnvelope id timestamp MESSAGE_SOURCES.CARBON_INGESTER
    MESSAGE_TYPES.CARBON_GENERATION (Payload.carbonGeneration data)

/-- src/lib/messages.ts `createWeatherCurrentMessage`. -/
def createWeatherCurrentMessage (id timestamp : String) (data : WeatherCurrentData) :
    MessageEnvelope :=
  createEnvelope id timestamp MESSAGE_SOURCES.WEATHER_INGESTER
    MESSAGE_TYPES.WEATHER_CURRENT (Payload.weatherCurrent data)

-- ============================================================================
-- src/lib/topology.ts (constants used by the publish path)
-- ============================================================================

/-- src/lib/topology.ts `EXCHANGES.TOPIC`. -/
def EXCHANGES.TOPIC : String := "feeds.topic"

/-- src/lib/topology.ts `EXCHANGES.DLX`. -/
def EXCHANGES.DLX : String := "feeds.dlx"

/-- src/lib/topology.ts `ROUTING_KEYS.CARBON_INTENSITY`. -/
def ROUTING_KEYS.CARBON_INTENSITY : String := "feed.carbon.intensity"

/-- src/lib/topology.ts `ROUTING_KEYS.CARBON_GENERATION`. -/
def ROUTING_KEYS.CARBON_GENERATION : String := "feed.carbon.generation"

/-- src/lib/topology.ts `ROUTING_KEYS.WEATHER_CURRENT`. -/
def ROUTING_KEYS.WEATHER_CURRENT : String := "feed.weather.current"

-- ============================================================================
-- Ingester publish path (src/ingesters/carbon.ts and the weather ingester)
-- ============================================================================

/-- Properties attached to a basic publish (the options object passed to
`channel.publish` in both ingesters). -/
structure PublishProps where
  contentType : String
  contentEncoding : String
  deliveryMode : Nat
  messageId : String
  timestampSec : Nat
  appId : String
  deriving Repr, DecidableEq

/-- One call to `channel.publish` on the topic exchange: exchange name, routing
key, the serialized envelope and the publish properties. -/
structure PublishedRecord where
  exchange : String
  routingKey : String
  content : MessageEnvelope
  props : PublishProps
  deriving Repr, DecidableEq

/-- src/ingesters/carbon.ts `publishMessage`.  The module-level `channel`
variable is the first parameter (`none` = channel not available); the clock
read `Math.floor(Date.now() / 1000)` is `nowSec`.  When the channel is null
the TS function throws `Error('Channel not available')` — modelled by
`Except.error`; note that nothing is recorded anywhere else: the ingester
state holds no message buffer. -/
def publishMessage (channel : Option Unit) (nowSec : Nat)
    (message : MessageEnvelope) (routingKey : String) :
    Except String PublishedRecord :=
  match channel with
  | none => Except.error "Channel not available"
  | some _ =>
      Except.ok
        { exchange := EXCHANGES.TOPIC
          routingKey := routingKey
          content := message
          props :=
            { contentType := "application/json"
              contentEncoding := "utf-8"
              deliveryMode := 2
              messageId := message.id
              timestampSec := nowSec
              appId := MESSAGE_SOURCES.CARBON_INGESTER } }

/-- Weather ingester `publishMessage` — identical to the carbon one except for
the `appId` publish property. -/
def weatherPublishMessage (channel : Option Unit) (nowSec : Nat)
    (message : MessageEnvelope) (routingKey : String) :
    Except String PublishedRecord :=
  match channel with
  | none => Except.error "Channel not available"
  | some _ =>
      Except.ok
        { exchange := EXCHANGES.TOPIC
          routingKey := routingKey
          content := message
          props :=
            { contentType := "application/json"
              contentEncoding := "utf-8"
              deliveryMode := 2
              messageId := message.id
              timestampSec := nowSec
              appId := MESSAGE_SOURCES.WEATHER_INGESTER } }

/-- src/ingesters/carbon.ts `CONFIG.baseRetryDelay` (ms). -/
def CONFIG.baseRetryDelay : Nat := 5000

/-- src/ingesters/carbon.ts `CONFIG.maxRetryDelay` (ms). -/
def CONFIG.maxRetryDelay : Nat := 300000

/-- src/ingesters/carbon.ts `CONFIG.intensityPollInterval` default (ms). -/
def CONFIG.intensityPollInterval : Nat := 120000

/-- src/ingesters/carbon.ts `CONFIG.generationPollInterval` default (ms). -/
def CONFIG.generationPollInterval : Nat := 300000

/-- src/ingesters/carbon.ts `calculateBackoff`:
`min(CONFIG.baseRetryDelay * 2 ** failures, CONFIG.maxRetryDelay)`. -/
def calculateBackoff (failures : Nat) : Nat :=
  min (CONFIG.baseRetryDelay * 2 ^ failures) CONFIG.maxRetryDelay

/-- Weather ingester `CONFIG.baseRetryDelay` (ms). -/
def WEATHER_CONFIG.baseRetryDelay : Nat := 10000

/-- Weather ingester `CONFIG.maxRetryDelay` (ms). -/
def WEATHER_CONFIG.maxRetryDelay : Nat := 600000

/-- Weather ingester `CONFIG.rateLimitDelay` (ms). -/
def WEATHER_CONFIG.rateLimitDelay : Nat := 60000

/-- Weather ingester `CONFIG.pollInterval` default (ms). -/
def WEATHER_CONFIG.pollInterval : Nat := 600000

/-- Weather ingester `calculateBackoff`. -/
def weatherCalculateBackoff (failureCount : Nat) : Nat :=
  min (WEATHER_CONFIG.baseRetryDelay * 2 ^ failureCount) WEATHER_CONFIG.maxRetryDelay

/-- What one poll iteration decides to do next: on success the next poll is
scheduled after the nominal interval (`setTimeout(poll, interval)`); on a
caught error the same fetch is retried after a backoff / cooldown sleep. -/
inductive PollOutcome where
  | scheduleNext (intervalMs : Nat)
  | retryAfter (delayMs : Nat)
  deriving Repr, DecidableEq

/-- One iteration of src/ingesters/carbon.ts `pollIntensity` (after the
`isShuttingDown` guard).  `fetched` is the outcome of `fetchIntensity()`
(`none` = the fetch threw); `id`/`ts`/`nowSec` are the nondeterministic
reads inside `createCarbonIntensityMessage` / `publishMessage`.  Returns the
new `intensityFailures` counter, the list of publishes performed, and what
the iteration does next.  A throw from `publishMessage` is caught by the
same `catch` as a fetch failure: the counter is incremented, the backoff is
slept, and the fetch is retried — the fetched envelope is not retained. -/
def pollIntensityStep (channel : Option Unit) (failures : Nat)
    (fetched : Option CarbonIntensityData) (id ts : String) (nowSec : Nat) :
    Nat × List PublishedRecord × PollOutcome :=
  match fetched with
  | none => (failures + 1, [], PollOutcome.retryAfter (calculateBackoff (failures + 1)))
  | some d =>
      match publishMessage channel nowSec (createCarbonIntensityMessage id ts d)
          ROUTING_KEYS.CARBON_INTENSITY with
      | Except.error _ =>
          (failures + 1, [], PollOutcome.retryAfter (calculateBackoff (failures + 1)))
      | Except.ok r =>
          (0, [r], PollOutcome.scheduleNext CONFIG.intensityPollInterval)

/-- One iteration of src/ingesters/carbon.ts `pollGeneration` (same structure as
`pollIntensityStep`, with the generation factory, routing key, counter and
poll interval). -/
def pollGenerationStep (channel : Option Unit) (failures : Nat)
    (fetched : Option CarbonGenerationData) (id ts : String) (nowSec : Nat) :
    Nat × List PublishedRecord × PollOutcome :=
  match fetched with
  | none => (failures + 1, [], PollOutcome.retryAfter (calculateBackoff (failures + 1)))
  | some d =>
      match publishMessage channel nowSec (createCarbonGenerationMessage id ts d)
          ROUTING_KEYS.CARBON_GENERATION with
      | Except.error _ =>
          (failures + 1, [], PollOutcome.retryAfter (calculateBackoff (failures + 1)))
      | Except.ok r =>
          (0, [r], PollOutcome.scheduleNext CONFIG.generationPollInterval)

/-- Outcome of the weather ingester `fetchWeather()`: success, a 429
`RateLimitError`, or any other throw (non-2xx, bad key, network, shape). -/
inductive WeatherFetchResult where
  | ok (d : WeatherCurrentData)
  | rateLimited
  | failed
  deriving Repr, DecidableEq

/-- One iteration of the weather ingester `pollWeather`.  A `RateLimitError`
takes the dedicated fixed-cooldown path and does not touch the failure
counter; every other caught error (including a throw from
`weatherPublishMessage`, which is not a `RateLimitError`) increments the
counter and sleeps the exponential backoff. -/
def pollWeatherStep (channel : Option Unit) (failures : Nat)
    (fetched : WeatherFetchResult) (id ts : String) (nowSec : Nat) :
    Nat × List PublishedRecord × PollOutcome :=
  match fetched with
  | WeatherFetchResult.rateLimited =>
      (failures, [], PollOutcome.retryAfter WEATHER_CONFIG.rateLimitDelay)
  | WeatherFetchResult.failed =>
      (failures + 1, [], PollOutcome.retryAfter (weatherCalculateBackoff (failures + 1)))
  | WeatherFetchResult.ok d =>
      match weatherPublishMessage channel nowSec (createWeatherCurrentMessage id ts d)
          ROUTING_KEYS.WEATHER_CURRENT with
      | Except.error _ =>
          (failures + 1, [], PollOutcome.retryAfter (weatherCalculateBackoff (failures + 1)))
      | Except.ok r =>
          (0, [r], PollOutcome.scheduleNext WEATHER_CONFIG.pollInterval)

-- ============================================================================
-- Consumers (logger consumer on feeds.all, aggregator consumer on feeds.carbon)
-- ============================================================================

/-- Ack/nack signal issued to the broker for one delivery.
`nack requeue` is `channel.nack(msg, false, requeue)`. -/
inductive BrokerSignal where
  | ack
  | nack (requeue : Bool)
  deriving Repr, DecidableEq

/-- One delivered message as seen by a consumer callback.
`body` is the result of `JSON.parse(msg.content.toString())` (`none` = the
parse throws, i.e. the body is not valid JSON for an envelope).
`retryCountHeader` is the `x-retry-count` style redelivery counter a header
could carry — the consumer code never reads any header, the field exists so
theorems can quantify over it.  `processingThrows` models whether the
dispatch body (the `switch` / format-and-log code, which operates on
unchecked casts of `envelope.data`) raises at runtime for this delivery. -/
structure ConsumeMessage where
  body : Option MessageEnvelope
  routingKey : String
  retryCountHeader : Nat
  processingThrows : Bool
  deriving Repr, DecidableEq

/-- Aggregator consumer `handleMessage`.  Source shape:
`if (!msg || !channel) return;` then
`try { parse; log; switch-dispatch; channel.ack(msg) } catch { channel.nack(msg, false, false) }`.
Returns the broker signals issued and the ids of envelopes whose processing
side effect (the per-message console output of the dispatched handler)
completed. -/
def handleMessage (channel : Option Unit) (msg : Option ConsumeMessage) :
    List BrokerSignal × List String :=
  match msg, channel with
  | none, _ => ([], [])
  | some _, none => ([], [])
  | some m, some _ =>
      match m.body with
      | none => ([BrokerSignal.nack false], [])
      | some env =>
          if m.processingThrows then ([BrokerSignal.nack false], [])
          else ([BrokerSignal.ack], [env.id])

/-- Logger consumer `handleMessage` — structurally identical decision tree:
parse, `formatMessageSummary` + log, `channel.ack`; any throw is caught and
answered with `channel.nack(msg, false, false)`. -/
def loggerHandleMessage (channel : Option Unit) (msg : Option ConsumeMessage) :
    List BrokerSignal × List String :=
  match msg, channel with
  | none, _ => ([], [])
  | some _, none => ([], [])
  | some m, some _ =>
      match m.body with
      | none => ([BrokerSignal.nack false], [])
      | some env =>
          if m.processingThrows then ([BrokerSignal.nack false], [])
          else ([BrokerSignal.ack], [env.id])

/-- A run of the aggregator consumer over a sequence of deliveries.  The
consumer keeps no state between deliveries (in particular no cache of
already-handled envelope ids), so a run is just the concatenation of the
per-delivery results. -/
def runAggregator (channel : Option Unit) : List (Option ConsumeMessage) →
    List BrokerSignal × List String
  | [] => ([], [])
  | m :: rest =>
      let r := handleMessage channel m
      let r2 := runAggregator channel rest
      (r.1 ++ r2.1, r.2 ++ r2.2)

-- ============================================================================
-- src/lib/connection.ts — ConnectionManager
-- ============================================================================

/-- Constructor options (src/lib/connection.ts `ConnectionManagerOptions`), with
the defaults applied in the constructor: `maxRetries ?? 10`,
`initialRetryDelay ?? 1000`, `maxRetryDelay ?? 30000`. -/
structure ConnMgrOpts where
  url : String
  maxRetries : Nat
  initialRetryDelay : Nat
  maxRetryDelay : Nat
  deriving Repr, DecidableEq

/-- The options of the singleton `getConnectionManager()` instance (all
defaults). -/
def ConnMgrOpts.default : ConnMgrOpts :=
  { url := "amqp://localhost", maxRetries := 10
    initialRetryDelay := 1000, maxRetryDelay := 30000 }

/-- Mutable fields of a `ConnectionManager` instance.  Connections and
channels are identified by abstract numeric handles. -/
structure CMState where
  connection : Option Nat
  channel : Option Nat
  isConnecting : Bool
  isClosed : Bool
  retryCount : Nat
  deriving Repr, DecidableEq

/-- src/lib/connection.ts `calculateBackoff`:
`min(initialRetryDelay * 2 ** (retryCount - 1), maxRetryDelay)`.  It is only
ever called right after `this.retryCount++`, so `retryCount ≥ 1`. -/
def ConnMgr.calculateBackoff (opts : ConnMgrOpts) (retryCount : Nat) : Nat :=
  min (opts.initialRetryDelay * 2 ^ (retryCount - 1)) opts.maxRetryDelay

/-- Result of the `while (retryCount <= maxRetries && !isClosed)` connect loop.
`delays` lists, in order, the backoff sleeps actually performed between
attempts.  `connected` = an `amqp.connect` succeeded; `failed` = the retry
ceiling was exceeded and the final `Failed to connect after ...` error was
thrown; `aborted` = the loop exited at its guard and threw
`Connection aborted` (stale `retryCount` above the ceiling on entry), or the
modelled environment supplied no further attempt outcomes. -/
inductive ConnectResult where
  | connected (conn : Nat) (delays : List Nat)
  | failed (delays : List Nat)
  | aborted (delays : List Nat)
  deriving Repr, DecidableEq

/-- The connect retry loop of src/lib/connection.ts `connect` (lines 53-101).
`attempts` is the environment: the outcome of each successive
`amqp.connect(url)` call (`some c` = a connection handle, `none` = throw).
On a failed attempt the counter is incremented, the backoff for the new
counter value is computed, and — if the ceiling is not yet exceeded — the
delay is slept and the loop continues; if it is exceeded the final error is
thrown without sleeping. -/
def connectLoop (opts : ConnMgrOpts) : Nat → List (Option Nat) → ConnectResult
  | _, [] => ConnectResult.aborted []
  | retryCount, a :: rest =>
      if retryCount > opts.maxRetries then ConnectResult.aborted []
      else
        match a with
        | some c => ConnectResult.connected c []
        | none =>
            let rc := retryCount + 1
            let d := ConnMgr.calculateBackoff opts rc
            if rc > opts.maxRetries then ConnectResult.failed []
            else
              match connectLoop opts rc rest with
              | ConnectResult.connected c ds => ConnectResult.connected c (d :: ds)
              | ConnectResult.failed ds => ConnectResult.failed (d :: ds)
              | ConnectResult.aborted ds => ConnectResult.aborted (d :: ds)

/-- src/lib/connection.ts `connect` as a state transformer.  If a connection
already exists it is returned with no state change (idempotence, line 39).
If another call is in flight the caller is parked on the listener lists —
modelled as the distinct `awaiting in-flight attempt` result, state
unchanged.  Otherwise the method sets `isConnecting := true` and — notably —
`isClosed := false` (line 51) before running the retry loop.  On success the
connection is stored and `retryCount` reset to 0; on permanent failure
`retryCount` has been driven past the ceiling and `isConnecting` cleared; on
the `Connection aborted` path `isConnecting` is left `true` (the throw at
line 101 bypasses the reset; `retryCount` is not tracked precisely in this
branch, which no theorem below relies on). -/
def ConnMgr.connect (opts : ConnMgrOpts) (s : CMState) (attempts : List (Option Nat)) :
    CMState × Except String Nat :=
  match s.connection with
  | some c => (s, Except.ok c)
  | none =>
      if s.isConnecting then (s, Except.error "awaiting in-flight attempt")
      else
        let s1 : CMState := { s with isConnecting := true, isClosed := false }
        match connectLoop opts s1.retryCount attempts with
        | ConnectResult.connected c _ =>
            ({ s1 with connection := some c, retryCount := 0, isConnecting := false },
              Except.ok c)
        | ConnectResult.failed _ =>
            ({ s1 with isConnecting := false, retryCount := opts.maxRetries + 1 },
              Except.error "Failed to connect")
        | ConnectResult.aborted _ => (s1, Except.error "Connection aborted")

/-- src/lib/connection.ts `getChannel`: return the existing channel if set,
otherwise `connect()` and create a fresh channel on the resulting
connection (`freshCh` is the handle `createChannel()` yields). -/
def ConnMgr.getChannel (opts : ConnMgrOpts) (s : CMState)
    (attempts : List (Option Nat)) (freshCh : Nat) : CMState × Except String Nat :=
  match s.channel with
  | some ch => (s, Except.ok ch)
  | none =>
      match ConnMgr.connect opts s attempts with
      | (s1, Except.ok _) => ({ s1 with channel := some freshCh }, Except.ok freshCh)
      | (s1, Except.error e) => (s1, Except.error e)

/-- The `ch.on('error', ...)` handler registered in `getChannel`
(src/lib/connection.ts lines 113-116): it sets `this.channel = null` and
nothing else. -/
def ConnMgr.channelOnError (s : CMState) : CMState :=
  { s with channel := none }

/-- The `ch.on('close', ...)` handler registered in `getChannel`
(src/lib/connection.ts lines 118-121): it sets `this.channel = null` and
nothing else. -/
def ConnMgr.channelOnClose (s : CMState) : CMState :=
  { s with channel := none }

/-- The two resource-close operations `close()` can issue, in program order. -/
inductive CloseOp where
  | closeChannel
  | closeConnection
  deriving Repr, DecidableEq

/-- src/lib/connection.ts `close`: set `isClosed := true`; if a channel exists,
`channel.close()` inside try/catch (the catch ignores the error) and null
the field; then the same for the connection.  `chCloseThrows` /
`connCloseThrows` say whether the underlying `close()` calls throw; the
catch blocks swallow them, so they do not influence the result.  The second
component lists the close operations issued, in order. -/
def ConnMgr.close (_chCloseThrows _connCloseThrows : Bool) (s : CMState) :
    CMState × List CloseOp :=
  let r1 : CMState × List CloseOp :=
    match s.channel with
    | some _ =>
        -- try { await this.channel.close() } catch { } ; chCloseThrows ignored
        ({ s with isClosed := true, channel := none }, [CloseOp.closeChannel])
    | none => ({ s with isClosed := true }, [])
  match r1.1.connection with
  | some _ =>
      -- try { await this.connection.close() } catch { } ; connCloseThrows ignored
      ({ r1.1 with connection := none }, r1.2 ++ [CloseOp.closeConnection])
  | none => (r1.1, r1.2)

/-- src/lib/connection.ts `handleDisconnect` (registered for connection-level
`error`/`close` events): null out connection and channel; if the manager is
not closed, fire a background `connect()` whose failure is swallowed
(line 168).  Returns the new state and whether a reconnect was initiated. -/
def ConnMgr.handleDisconnect (opts : ConnMgrOpts) (s : CMState)
    (attempts : List (Option Nat)) : CMState × Bool :=
  let s1 : CMState := { s with connection := none, channel := none }
  if s1.isClosed then (s1, false)
  else ((ConnMgr.connect opts s1 attempts).1, true)

-- ============================================================================
-- Helper definitions and lemmas (shared; not claim theorems)
-- ============================================================================

/-- The list of backoff delays the connect loop sleeps when, starting from
counter value `rc`, the next `d` attempts all fail without reaching the
ceiling: the k-th of them is computed for counter value `rc + k`. -/
def expectedDelays (opts : ConnMgrOpts) : Nat → Nat → List Nat
  | _, 0 => []
  | rc, d + 1 =>
      ConnMgr.calculateBackoff opts (rc + 1) :: expectedDelays opts (rc + 1) d

theorem expectedDelays_eq_map (opts : ConnMgrOpts) :
    ∀ d rc, expectedDelays opts rc d
      = (List.range d).map fun i =>
          min (opts.initialRetryDelay * 2 ^ (rc + i)) opts.maxRetryDelay := by
  intro d
  induction d with
  | zero => intro rc; rfl
  | succ d ih =>
    intro rc
    have hstep : expectedDelays opts rc (d + 1)
        = ConnMgr.calculateBackoff opts (rc + 1) :: expectedDelays opts (rc + 1) d := rfl
    rw [hstep, ih (rc + 1), List.range_succ_eq_map, List.map_cons, List.map_map]
    congr 1
    refine congrArg (fun f => List.map f (List.range d)) ?_
    funext i
    exact congrArg (fun t => min (opts.initialRetryDelay * 2 ^ t) opts.maxRetryDelay)
      (by omega)

theorem connectLoop_cons_none (opts : ConnMgrOpts) (rc : Nat) (rest : List (Option Nat)) :
    connectLoop opts rc (none :: rest)
      = if rc > opts.maxRetries then ConnectResult.aborted []
        else if rc + 1 > opts.maxRetries then ConnectResult.failed []
        else
          match connectLoop opts (rc + 1) rest with
          | ConnectResult.connected c ds =>
              ConnectResult.connected c (ConnMgr.calculateBackoff opts (rc + 1) :: ds)
          | ConnectResult.failed ds =>
              ConnectResult.failed (ConnMgr.calculateBackoff opts (rc + 1) :: ds)
          | ConnectResult.aborted ds =>
              ConnectResult.aborted (ConnMgr.calculateBackoff opts (rc + 1) :: ds) := rfl

theorem connectLoop_replicate_fail (opts : ConnMgrOpts) :
    ∀ d rest, d ≤ opts.maxRetries →
      connectLoop opts (opts.maxRetries - d) (List.replicate (d + 1) none ++ rest)
        = ConnectResult.failed (expectedDelays opts (opts.maxRetries - d) d) := by
  intro d
  induction d with
  | zero =>
    intro rest _
    show connectLoop opts (opts.maxRetries - 0) (none :: rest) = ConnectResult.failed []
    rw [Nat.sub_zero, connectLoop_cons_none,
      if_neg (by omega : ¬ opts.maxRetries > opts.maxRetries),
      if_pos (by omega : opts.maxRetries + 1 > opts.maxRetries)]
  | succ d ih =>
    intro rest hd
    have hsub : opts.maxRetries - (d + 1) + 1 = opts.maxRetries - d := by omega
    have hexp : expectedDelays opts (opts.maxRetries - (d + 1)) (d + 1)
        = ConnMgr.calculateBackoff opts (opts.maxRetries - (d + 1) + 1)
            :: expectedDelays opts (opts.maxRetries - (d + 1) + 1) d := rfl
    show connectLoop opts (opts.maxRetries - (d + 1))
        (none :: (List.replicate (d + 1) none ++ rest)) = _
    rw [connectLoop_cons_none,
      if_neg (by omega : ¬ opts.maxRetries - (d + 1) > opts.maxRetries),
      if_neg (by omega : ¬ opts.maxRetries - (d + 1) + 1 > opts.maxRetries),
      hsub, ih rest (by omega), hexp, hsub]

theorem connectLoop_exhaust (opts : ConnMgrOpts) (rest : List (Option Nat)) :
    connectLoop opts 0 (List.replicate (opts.maxRetries + 1) none ++ rest)
      = ConnectResult.failed ((List.range opts.maxRetries).map fun i =>
          min (opts.initialRetryDelay * 2 ^ i) opts.maxRetryDelay) := by
  have h := connectLoop_replicate_fail opts opts.maxRetries rest (le_refl _)
  rw [Nat.sub_self] at h
  rw [h, expectedDelays_eq_map]
  refine congrArg ConnectResult.failed (congrArg (fun f => List.map f (List.range _)) ?_)
  funext i
  exact congrArg (fun t => min (opts.initialRetryDelay * 2 ^ t) opts.maxRetryDelay)
    (Nat.zero_add i)

/-- Fixture for the duplicate-delivery run: a concrete, well-formed
carbon-intensity payload. -/
def dupIntensityData : CarbonIntensityData :=
  { periodStart := "2026-01-01T00:00Z", periodEnd := "2026-01-01T00:30Z"
    forecast := 195, actual := some 192, index := "moderate" }

/-- Fixture: a concrete envelope with a fixed id, as an ingester would publish it. -/
def dupEnvelope : MessageEnvelope :=
  { id := "aaaaaaaa-bbbb-cccc-dddd-eeeeeeeeeeee"
    source := "carbon-ingester", type := "feed.carbon.intensity"
    timestamp := "2026-01-01T00:00:05.000Z"
    data := Payload.carbonIntensity dupIntensityData }

/-- Fixture: the broker delivery carrying `dupEnvelope` (valid body, first
delivery, handler does not throw). -/
def dupDelivery : ConsumeMessage :=
  { body := some dupEnvelope, routingKey := "feed.carbon.intensity"
    retryCountHeader := 0, processingThrows := false }

-- ============================================================================
-- Claim theorems
-- ============================================================================

/-- C1: every message published by an ingester has its envelope `type` field
equal to the routing key passed to the publish call.  The first three
conjuncts pair each envelope factory with the routing key used at its unique
publish site (`pollIntensity` publishes `createCarbonIntensityMessage` under
`ROUTING_KEYS.CARBON_INTENSITY`, and so on); the next three state that every
record actually published by a poll iteration carries `content.type` equal
to its routing key; the last pins the concrete carbon-intensity key. -/
theorem c1_envelope_type_equals_routing_key :
    (∀ id ts d, (createCarbonIntensityMessage id ts d).type = ROUTING_KEYS.CARBON_INTENSITY)
    ∧ (∀ id ts d, (createCarbonGenerationMessage id ts d).type = ROUTING_KEYS.CARBON_GENERATION)
    ∧ (∀ id ts d, (createWeatherCurrentMessage id ts d).type = ROUTING_KEYS.WEATHER_CURRENT)
    ∧ (∀ ch f fd id ts now,
        ((pollIntensityStep ch f fd id ts now).2.1.all
          fun r => r.content.type == r.routingKey) = true)
    ∧ (∀ ch f fd id ts now,
        ((pollGenerationStep ch f fd id ts now).2.1.all
          fun r => r.content.type == r.routingKey) = true)
    ∧ (∀ ch f fd id ts now,
        ((pollWeatherStep ch f fd id ts now).2.1.all
          fun r => r.content.type == r.routingKey) = true)
    ∧ ROUTING_KEYS.CARBON_INTENSITY = "feed.carbon.intensity" := by
  refine ⟨fun _ _ _ => rfl, fun _ _ _ => rfl, fun _ _ _ => rfl, ?_, ?_, ?_, rfl⟩
  · intro ch f fd id ts now
    cases fd <;> cases ch <;> rfl
  · intro ch f fd id ts now
    cases fd <;> cases ch <;> rfl
  · intro ch f fd id ts now
    cases fd <;> cases ch <;> rfl

/-- C2 (code_bug evidence): when the channel is unavailable, the ingester
publish path drops the envelope instead of buffering it.  `publishMessage`
throws `Channel not available` (first two conjuncts, both ingesters); the
poll iteration catches that throw on its generic failure path: the returned
publish list is empty, the only state retained is the incremented failure
counter (the ingester has no buffer at all), and the iteration moves on to a
backoff retry of the whole fetch — so the envelope is gone, though the
failure is absorbed rather than escaping the process (the outcome is
`retryAfter`, matching the never-crash half of the claim). -/
theorem c2_channel_unavailable_drops_envelope :
    (∀ now m rk, publishMessage none now m rk = Except.error "Channel not available")
    ∧ (∀ now m rk, weatherPublishMessage none now m rk = Except.error "Channel not available")
    ∧ (∀ f d id ts now,
        pollIntensityStep none f (some d) id ts now
          = (f + 1, [], PollOutcome.retryAfter (calculateBackoff (f + 1)))) := by
  exact ⟨fun _ _ _ => rfl, fun _ _ _ => rfl, fun _ _ _ _ _ => rfl⟩

/-- C3 (code_bug evidence): the consumers perform no idempotency check.
Delivering the same valid envelope (same `id`) twice to the aggregator
consumer produces two completed processing side effects and two acks — the
run state carries no recent-history cache of handled ids at all, so the
second delivery is reprocessed, contradicting the claimed
ack-without-reprocessing dedup behavior. -/
theorem c3_duplicate_id_processed_twice :
    runAggregator (some ()) [some dupDelivery, some dupDelivery]
      = ([BrokerSignal.ack, BrokerSignal.ack],
          ["aaaaaaaa-bbbb-cccc-dddd-eeeeeeeeeeee",
            "aaaaaaaa-bbbb-cccc-dddd-eeeeeeeeeeee"]) := rfl

/-- C4 (code_bug evidence): for every delivery whose handler throws, the
aggregator consumer nacks without requeue immediately, for every value of
the redelivery counter header — in particular for a first attempt (header
0, below the documented `maxAttempts = 3`), so there are zero requeue
cycles and the counter header is never read or incremented, contradicting
the claimed requeue-until-max retry behavior. -/
theorem c4_transient_error_never_requeued :
    ∀ env rk n,
      handleMessage (some ())
          (some { body := some env, routingKey := rk
                  retryCountHeader := n, processingThrows := true })
        = ([BrokerSignal.nack false], []) := by
  exact fun _ _ _ => rfl

/-- C5: a delivery whose body fails to parse as an envelope is nacked exactly
once with `requeue = false` (dead-letter path) and produces no processing
side effect, in both the logger and the aggregator consumer, regardless of
routing key, redelivery count or handler behavior — it is never requeued. -/
theorem c5_parse_failure_nacked_no_requeue :
    ∀ rk n b,
      handleMessage (some ())
          (some { body := none, routingKey := rk
                  retryCountHeader := n, processingThrows := b })
        = ([BrokerSignal.nack false], [])
      ∧ loggerHandleMessage (some ())
          (some { body := none, routingKey := rk
                  retryCountHeader := n, processingThrows := b })
        = ([BrokerSignal.nack false], []) := by
  exact fun _ _ _ => ⟨rfl, rfl⟩

/-- C6 counterexample: the claim says that after a successful fetch resets the
failure counter, the delay computed for the next failure equals
`baseDelay`.  On the code, with `intensityFailures = 0` (just reset), the
next failure increments the counter before computing the backoff, yielding
`min(5000 * 2^1, 300000) = 10000 = 2 * baseDelay`, not `baseDelay = 5000`. -/
theorem c6_reset_delay_counterexample :
    (pollIntensityStep (some ()) 0 none "" "" 0).2.2 = PollOutcome.retryAfter 10000
      ∧ CONFIG.baseRetryDelay = 5000 ∧ (10000 : Nat) ≠ 5000 := by
  exact ⟨rfl, rfl, by decide⟩

/-- C6 amended: consecutive generic fetch failures produce non-decreasing
delays capped at `maxRetryDelay`, following
`delay = min(baseDelay * 2^f, maxDelay)` where `f` is the failure counter
after increment (the k-th consecutive failure uses `f = k`); a success
resets the counter to zero, so the next failure's delay equals
`min(2 * baseDelay, maxDelay)` (= `2 * baseDelay` for the carbon config),
not `baseDelay`. -/
theorem c6_backoff_monotone_capped :
    (∀ k, calculateBackoff k ≤ calculateBackoff (k + 1))
    ∧ (∀ k, calculateBackoff k ≤ CONFIG.maxRetryDelay)
    ∧ (∀ ch f id ts now,
        (pollIntensityStep ch f none id ts now).2.2
          = PollOutcome.retryAfter
              (min (CONFIG.baseRetryDelay * 2 ^ (f + 1)) CONFIG.maxRetryDelay))
    ∧ (∀ f d id ts now, (pollIntensityStep (some ()) f (some d) id ts now).1 = 0)
    ∧ (∀ ch id ts now,
        (pollIntensityStep ch 0 none id ts now).2.2
          = PollOutcome.retryAfter (min (2 * CONFIG.baseRetryDelay) CONFIG.maxRetryDelay)) := by
  refine ⟨?_, ?_, fun _ _ _ _ _ => rfl, fun _ _ _ _ _ => rfl, fun _ _ _ _ => rfl⟩
  · intro k
    exact min_le_min
      (Nat.mul_le_mul_left _ (Nat.pow_le_pow_right (by decide) (Nat.le_succ k)))
      (le_refl _)
  · intro k
    exact min_le_right _ _

/-- C7: starting from `Disconnected` with a zero retry counter, if every
`amqp.connect` attempt fails the connect loop makes exactly
`maxRetries + 1` attempts, sleeping `min(initialRetryDelay * 2^(k-1),
maxRetryDelay)` before the k-th retry (the mapped list entry `i = k - 1`),
then fails permanently regardless of how many further attempt outcomes the
environment could supply; `connect` surfaces that failure to the caller as
the final connection error, leaving no connection established. -/
theorem c7_connect_retry_exhaustion (opts : ConnMgrOpts) (rest : List (Option Nat))
    (ch : Option Nat) (cl : Bool) :
    connectLoop opts 0 (List.replicate (opts.maxRetries + 1) none ++ rest)
      = ConnectResult.failed ((List.range opts.maxRetries).map fun i =>
          min (opts.initialRetryDelay * 2 ^ i) opts.maxRetryDelay)
    ∧ ConnMgr.connect opts
        { connection := none, channel := ch, isConnecting := false
          isClosed := cl, retryCount := 0 }
        (List.replicate (opts.maxRetries + 1) none ++ rest)
      = ((⟨none, ch, false, false, opts.maxRetries + 1⟩ : CMState),
          Except.error "Failed to connect") := by
  refine ⟨connectLoop_exhaust opts rest, ?_⟩
  show (match connectLoop opts 0 (List.replicate (opts.maxRetries + 1) none ++ rest) with
        | ConnectResult.connected c _ =>
            ((⟨some c, ch, false, false, 0⟩ : CMState), Except.ok c)
        | ConnectResult.failed _ =>
            ((⟨none, ch, false, false, opts.maxRetries + 1⟩ : CMState),
              Except.error "Failed to connect")
        | ConnectResult.aborted _ =>
            ((⟨none, ch, true, false, 0⟩ : CMState), Except.error "Connection aborted"))
      = ((⟨none, ch, false, false, opts.maxRetries + 1⟩ : CMState),
          Except.error "Failed to connect")
  rw [connectLoop_exhaust opts rest]

/-- C8 counterexample: `Closed` is not terminal on the code.  Close a manager
that holds a live connection and channel (the state is then marked closed
with both resources torn down), then call `connect()` with one successful
attempt available: line 51 of `connect` resets `isClosed` to `false` and the
manager re-establishes a connection — a subsequent operation does
transition the manager out of `Closed`. -/
theorem c8_close_not_terminal_counterexample :
    ((ConnMgr.close false false
        { connection := some 1, channel := some 1, isConnecting := false
          isClosed := false, retryCount := 0 }).1.isClosed = true)
    ∧ ((ConnMgr.connect ConnMgrOpts.default
          (ConnMgr.close false false
            { connection := some 1, channel := some 1, isConnecting := false
              isClosed := false, retryCount := 0 }).1 [some 2]).1.connection = some 2)
    ∧ ((ConnMgr.connect ConnMgrOpts.default
          (ConnMgr.close false false
            { connection := some 1, channel := some 1, isConnecting := false
              isClosed := false, retryCount := 0 }).1 [some 2]).1.isClosed = false) := by
  exact ⟨rfl, rfl, rfl⟩

/-- C8 amended: `close()` marks the manager closed, clears channel and
connection, issues the channel close before the connection close when both
are live, and its result does not depend on whether the underlying close
calls throw (close-time errors are swallowed); while the closed flag is
set, background recovery (`handleDisconnect`) never initiates a reconnect.
However `Closed` is terminal only against background recovery: an explicit
later `connect()` clears the flag and may re-establish a connection (see
the counterexample). -/
theorem c8_close_and_background_recovery :
    (∀ a b s, (ConnMgr.close a b s).1.isClosed = true
      ∧ (ConnMgr.close a b s).1.channel = none
      ∧ (ConnMgr.close a b s).1.connection = none
      ∧ ConnMgr.close a b s = ConnMgr.close false false s)
    ∧ (∀ a b conn ch ic cl rc,
        (ConnMgr.close a b
          { connection := some conn, channel := some ch, isConnecting := ic
            isClosed := cl, retryCount := rc }).2
          = [CloseOp.closeChannel, CloseOp.closeConnection])
    ∧ (∀ opts conn ch ic rc attempts,
        ConnMgr.handleDisconnect opts
            { connection := conn, channel := ch, isConnecting := ic
              isClosed := true, retryCount := rc } attempts
          = ((⟨none, none, ic, true, rc⟩ : CMState), false)) := by
  refine ⟨?_, fun _ _ _ _ _ _ _ => rfl, fun _ _ _ _ _ _ => rfl⟩
  intro a b s
  obtain ⟨c, ch, ic, cl, rc⟩ := s
  cases ch <;> cases c <;> exact ⟨rfl, rfl, rfl, rfl⟩

/-- C9: a channel-level `error` or `close` event handler sets only the
`channel` field to `null` — connection, connecting/closed flags and retry
counter are all unchanged — and the next `getChannel()` call on a state
with a live connection and no channel creates a fresh channel on that same
connection without touching any other field. -/
theorem c9_channel_invalidation_frame :
    (∀ conn ch ic cl rc,
      ConnMgr.channelOnError
          { connection := conn, channel := ch, isConnecting := ic
            isClosed := cl, retryCount := rc }
        = { connection := conn, channel := none, isConnecting := ic
            isClosed := cl, retryCount := rc }
      ∧ ConnMgr.channelOnClose
          { connection := conn, channel := ch, isConnecting := ic
            isClosed := cl, retryCount := rc }
        = { connection := conn, channel := none, isConnecting := ic
            isClosed := cl, retryCount := rc })
    ∧ (∀ opts c ic cl rc attempts fresh,
        ConnMgr.getChannel opts
            { connection := some c, channel := none, isConnecting := ic
              isClosed := cl, retryCount := rc } attempts fresh
          = ((⟨some c, some fresh, ic, cl, rc⟩ : CMState), Except.ok fresh)) := by
  exact ⟨fun _ _ _ _ _ => ⟨rfl, rfl⟩, fun _ _ _ _ _ _ _ => rfl⟩

/-- C10: for every consumer callback invocation — in both the logger and the
aggregator — a null message or null channel produces no broker operation
and no side effect; otherwise exactly one broker signal is issued, and it
is either an ack (successful processing) or a nack without requeue (any
thrown error, parse or dispatch); the callback itself is total, so no
exception escapes it.  The last conjunct pins the success case: valid body
and non-throwing dispatch yield exactly one ack and the one side effect. -/
theorem c10_exactly_one_signal_per_delivery :
    (∀ ch, handleMessage ch none = ([], []) ∧ loggerHandleMessage ch none = ([], []))
    ∧ (∀ m, handleMessage none (some m) = ([], [])
        ∧ loggerHandleMessage none (some m) = ([], []))
    ∧ (∀ m, (handleMessage (some ()) (some m)).1 = [BrokerSignal.ack]
        ∨ (handleMessage (some ()) (some m)).1 = [BrokerSignal.nack false])
    ∧ (∀ m, (loggerHandleMessage (some ()) (some m)).1 = [BrokerSignal.ack]
        ∨ (loggerHandleMessage (some ()) (some m)).1 = [BrokerSignal.nack false])
    ∧ (∀ env rk n,
        handleMessage (some ())
            (some { body := some env, routingKey := rk
                    retryCountHeader := n, processingThrows := false })
          = ([BrokerSignal.ack], [env.id])) := by
  refine ⟨fun ch => ⟨rfl, rfl⟩, fun m => ⟨rfl, rfl⟩, ?_, ?_, fun _ _ _ => rfl⟩
  · intro m
    obtain ⟨b, rk, n, p⟩ := m
    cases b with
    | none => exact Or.inr rfl
    | some env =>
        cases p with
        | false => exact Or.inl rfl
        | true => exact Or.inr rfl
  · intro m
    obtain ⟨b, rk, n, p⟩ := m
    cases b with
    | none => exact Or.inr rfl
    | some env =>
        cases p with
        | false => exact Or.inl rfl
        | true => exact Or.inr rfl
